import Mathlib

/-!
# Verification of the Neovim driver core (`NeovimInstance.ts`)

A shallow embedding of the redraw-notification interpreter, the plugin-notification
router, the attach negotiation, the buffer synchronizer and the resize coordinator
of `src/browser/src/neovim/NeovimInstance.ts`, together with theorems settling the
specification claims about them.

Wire values (already-decoded msgpack payloads) are modelled by the inductive type
`NVal`; JavaScript `undefined` is modelled by `NVal.nil`, and out-of-range indexing
or field access on a non-object yields `NVal.nil`.
-/

namespace Oni

/-- An already-decoded wire value, as the notification handlers see it.
`nil` stands for JavaScript `undefined`/`null`. -/
inductive NVal where
  | nil : NVal
  | num : Int → NVal
  | str : String → NVal
  | bool : Bool → NVal
  | list : List NVal → NVal
  | dict : List (String × NVal) → NVal

/-- JavaScript indexing `v[i]` on a decoded value: element `i` of an array,
`undefined` otherwise. -/
def NVal.idx : NVal → Nat → NVal
  | NVal.list xs, i => xs.getD i NVal.nil
  | _, _ => NVal.nil

/-- JavaScript property access `v.k` on a decoded value: the named field of an
object, `undefined` otherwise. -/
def NVal.getField : NVal → String → NVal
  | NVal.dict entries, k => go entries k
  | _, _ => NVal.nil
where
  go : List (String × NVal) → String → NVal
    | [], _ => NVal.nil
    | (k', v) :: rest, k => if k' = k then v else go rest k

/-- JavaScript truthiness (the `!!x` coercion). -/
def NVal.truthy : NVal → Bool
  | NVal.nil => false
  | NVal.num n => n ≠ 0
  | NVal.str s => s ≠ ""
  | NVal.bool b => b
  | NVal.list _ => true
  | NVal.dict _ => true

/-- The elements of an array value, `[]` for a non-array. -/
def NVal.toListD : NVal → List NVal
  | NVal.list xs => xs
  | _ => []

/-- The elements after the first of an array value (the effect the destructive
`shift()` in the plugin router has on the argument array). -/
def NVal.tailList (v : NVal) : List NVal := v.toListD.tail

/- ## Attach negotiation (`_getStartupOptionsForVersion`, lines 638-655) -/

/-- The capability set passed on `nvim_ui_attach`. `ext_tabline = none` models the
object literal that omits the `ext_tabline` key (the 0.2.0 branch). -/
structure StartupOptions where
  rgb : Bool
  popupmenu_external : Bool
  ext_tabline : Option Bool
  deriving DecidableEq

/-- `_getStartupOptionsForVersion(major, minor, patch)`: the version policy table,
evaluated in source order; the final branch models the thrown
`Error("Unsupported version of Neovim.")`. -/
def _getStartupOptionsForVersion (major minor patch : Int) : Except String StartupOptions :=
  if major ≥ 0 ∧ minor ≥ 2 ∧ patch ≥ 1 then
    Except.ok ⟨true, true, some true⟩
  else if major = 0 ∧ minor = 2 then
    Except.ok ⟨true, true, none⟩
  else
    Except.error "Unsupported version of Neovim."

/- ## Buffer synchronizer (`_onFullBufferUpdate`, lines 605-617) -/

/-- The hard ceiling on full-buffer-update line counts (line 64). -/
def MAX_LINES_FOR_BUFFER_UPDATE : Int := 5000

/-- An observable effect of the buffer synchronizer. `errorFeed` is a dispatch on
the `_onErrorEvent` feed (what `_onError` would produce); `rejectedUnhandled` is a
rejection of the async `_onFullBufferUpdate` promise that no caller handles (the
notification handler at line 284 invokes it without `await` or `.catch`). -/
inductive BufferSyncEffect where
  | fetchRpc (bufferId : NVal) (startIdx endIdx : Int) (strictIndexing : Bool)
  | fullUpdateDispatched (ctx : NVal) (bufferLines : List String)
  | errorFeed (msg : String)
  | rejectedUnhandled (msg : String)

/-- `_onFullBufferUpdate(context, startRange, endRange)`, parameterised by the
outcome `fetchResult` the transport gives the `nvim_buf_get_lines` request: returns
the ordered effects of one invocation. If the end line exceeds the ceiling, nothing
happens; otherwise the fetch RPC is issued with arguments
`[context.bufferNumber, startRange - 1, endRange, false]`, and on success the
full-update event is dispatched, while on failure the rejection escapes the
un-awaited async call unhandled. -/
def _onFullBufferUpdate (fetchResult : Except String (List String))
    (context : NVal) (startRange endRange : Int) : List BufferSyncEffect :=
  if endRange > MAX_LINES_FOR_BUFFER_UPDATE then
    []
  else
    BufferSyncEffect.fetchRpc (context.getField "bufferNumber") (startRange - 1) endRange false ::
      match fetchResult with
      | Except.ok bufferLines => [BufferSyncEffect.fullUpdateDispatched context bufferLines]
      | Except.error e => [BufferSyncEffect.rejectedUnhandled e]

/-- Recogniser for the fetch RPC among buffer-synchronizer effects. -/
def BufferSyncEffect.isFetch : BufferSyncEffect → Bool
  | BufferSyncEffect.fetchRpc _ _ _ _ => true
  | _ => false

/-- Recogniser for an Error-feed dispatch among buffer-synchronizer effects. -/
def BufferSyncEffect.isErrorFeed : BufferSyncEffect → Bool
  | BufferSyncEffect.errorFeed _ => true
  | _ => false

/-- Recogniser for a full-update event dispatch. -/
def BufferSyncEffect.isFullUpdate : BufferSyncEffect → Bool
  | BufferSyncEffect.fullUpdateDispatched _ _ => true
  | _ => false

/- ## Interface members that ignore state (`cursorPosition`, `screenToPixels`,
lines 417-429) -/

/-- A screen position (`IPosition`). -/
structure IPosition where
  row : Int
  column : Int
  deriving DecidableEq

/-- A pixel position (`IPixelPosition`). -/
structure IPixelPosition where
  x : Int
  y : Int
  deriving DecidableEq

/-- The geometry-related instance state of the driver: the pixel sizes and font
metrics recorded by `resize`/`setFont` and the last applied row/column counts
(`_rows`/`_cols`), plus whether `start` has been called (`_initPromise` set). -/
structure ResizeState where
  lastWidthInPixels : ℚ
  lastHeightInPixels : ℚ
  fontWidthInPixels : ℚ
  fontHeightInPixels : ℚ
  rows : Int
  cols : Int
  attached : Bool
  deriving DecidableEq

/-- The `cursorPosition` getter (lines 417-422): it reads nothing from the
instance and always returns row 0, column 0. The state argument records that the
getter has access to the instance state and ignores it. -/
def cursorPosition (_s : ResizeState) : IPosition := ⟨0, 0⟩

/-- `screenToPixels(row, col)` (lines 424-429): ignores its arguments and the
instance state and always returns the origin. -/
def screenToPixels (_s : ResizeState) (_row _col : Int) : IPixelPosition := ⟨0, 0⟩

/- ## Redraw interpreter (`_handleNotification`, lines 494-603) -/

/-- A decoded popup-menu completion item (`popupmenu_show` maps each item through
positional destructuring `[word, kind, menu, info]`). -/
structure CompletionItem where
  word : NVal
  kind : NVal
  menu : NVal
  info : NVal

/-- A decoded tab entry of `tabline_update` (`{ id: t.tab.id, name: t.name }`). -/
structure TabInfo where
  id : NVal
  name : NVal

/-- One observable emission of the redraw interpreter: an `action`-channel UI
action, a side-channel event dispatch, or the warning logged for an unknown
command. Constructor argument order follows the source call sites. -/
inductive Emitted where
  | cursorGoto (row col : NVal)
  | putChars (characters : List NVal)
  | setScrollRegion (top bottom left right : NVal)
  | scrollAction (value : NVal)
  | scrollEventScheduled
  | setHighlight (bold italic reverse underline undercurl : Bool) (foreground background : NVal)
  | resizeAction (arg0 arg1 : NVal)
  | setTitle (title : NVal)
  | clearToEndOfLine
  | clearScreen
  | updateBackground (color : NVal)
  | updateForeground (color : NVal)
  | changeModeAction (mode : NVal)
  | modeChangedEvent (mode : NVal)
  | selectPopupMenu (index : NVal)
  | hidePopupMenu
  | showPopupMenu (items : List CompletionItem) (selectedIndex row col : NVal)
  | tablineUpdate (currentTabId : NVal) (tabs : List TabInfo)
  | bellPlayed
  | warnUnhandled (command : NVal)

/-- The redraw command names the interpreter's `switch` handles. -/
def knownRedrawCommands : List String :=
  ["cursor_goto", "put", "set_scroll_region", "scroll", "highlight_set", "resize",
   "set_title", "set_icon", "eol_clear", "clear", "mouse_on", "update_bg",
   "update_fg", "mode_change", "popupmenu_select", "popupmenu_hide",
   "popupmenu_show", "tabline_update", "bell"]

/-- The `setHighlight` emission `highlight_set` computes from a highlight-info
object: each flag is the `!!` coercion of the named field, and the colors are
passed through as-is. -/
def highlightEmission (highlightInfo : NVal) : Emitted :=
  Emitted.setHighlight
    (highlightInfo.getField "bold").truthy
    (highlightInfo.getField "italic").truthy
    (highlightInfo.getField "reverse").truthy
    (highlightInfo.getField "underline").truthy
    (highlightInfo.getField "undercurl").truthy
    (highlightInfo.getField "foreground")
    (highlightInfo.getField "background")

/-- One iteration of the `args.forEach` loop of `_handleNotification`: `entry` is
one element `a` of the payload, whose head is the command name and whose tail is
the list of argument tuples. `bellUrl` is the configured
`oni.audio.bellUrl` value and `pending` the `_pendingScrollTimeout` flag consulted
and set by `_dispatchScrollEvent`; the result pairs the updated flag with the
ordered emissions. A non-string command name, or a string matching no `case`,
falls to the `default` branch, which logs a warning and nothing else. -/
def handleEntry (bellUrl : NVal) (pending : Bool) (entry : List NVal) :
    Bool × List Emitted :=
  let command := entry.headD NVal.nil
  let a := entry.tail
  match command with
  | NVal.str s =>
    if s = "cursor_goto" then
      (pending, [Emitted.cursorGoto ((a.headD NVal.nil).idx 0) ((a.headD NVal.nil).idx 1)])
    else if s = "put" then
      (pending, [Emitted.putChars (a.map (fun v => v.idx 0))])
    else if s = "set_scroll_region" then
      let param := a.headD NVal.nil
      (pending, [Emitted.setScrollRegion (param.idx 0) (param.idx 1) (param.idx 2) (param.idx 3)])
    else if s = "scroll" then
      (true, Emitted.scrollAction ((a.headD NVal.nil).idx 0) ::
        if pending then [] else [Emitted.scrollEventScheduled])
    else if s = "highlight_set" then
      (pending, [highlightEmission ((a.getLastD NVal.nil).idx 0)])
    else if s = "resize" then
      (pending, [Emitted.resizeAction ((a.headD NVal.nil).idx 0) ((a.headD NVal.nil).idx 1)])
    else if s = "set_title" then
      (pending, [Emitted.setTitle ((a.headD NVal.nil).idx 0)])
    else if s = "set_icon" then
      (pending, [])
    else if s = "eol_clear" then
      (pending, [Emitted.clearToEndOfLine])
    else if s = "clear" then
      (pending, [Emitted.clearScreen])
    else if s = "mouse_on" then
      (pending, [])
    else if s = "update_bg" then
      (pending, [Emitted.updateBackground ((a.headD NVal.nil).idx 0)])
    else if s = "update_fg" then
      (pending, [Emitted.updateForeground ((a.headD NVal.nil).idx 0)])
    else if s = "mode_change" then
      let newMode := (a.getLastD NVal.nil).idx 0
      (pending, [Emitted.changeModeAction newMode, Emitted.modeChangedEvent newMode])
    else if s = "popupmenu_select" then
      (pending, [Emitted.selectPopupMenu ((a.headD NVal.nil).idx 0)])
    else if s = "popupmenu_hide" then
      (pending, [Emitted.hidePopupMenu])
    else if s = "popupmenu_show" then
      let t := a.headD NVal.nil
      let mappedItems := (t.idx 0).toListD.map
        (fun item => CompletionItem.mk (item.idx 0) (item.idx 1) (item.idx 2) (item.idx 3))
      (pending, [Emitted.showPopupMenu mappedItems (t.idx 1) (t.idx 2) (t.idx 3)])
    else if s = "tabline_update" then
      let t := a.headD NVal.nil
      let mappedTabs := (t.idx 1).toListD.map
        (fun tb => TabInfo.mk ((tb.getField "tab").getField "id") (tb.getField "name"))
      (pending, [Emitted.tablineUpdate ((t.idx 0).getField "id") mappedTabs])
    else if s = "bell" then
      (pending, if bellUrl.truthy then [Emitted.bellPlayed] else [])
    else
      (pending, [Emitted.warnUnhandled (NVal.str s)])
  | c => (pending, [Emitted.warnUnhandled c])

/-- The whole `args.forEach` loop of `_handleNotification`: entries are processed
strictly in order, each seeing the scroll-debounce flag its predecessors left, and
their emissions are concatenated in arrival order. -/
def handleNotification (bellUrl : NVal) (pending : Bool) :
    List (List NVal) → Bool × List Emitted
  | [] => (pending, [])
  | entry :: rest =>
    let r1 := handleEntry bellUrl pending entry
    let r2 := handleNotification bellUrl r1.1 rest
    (r2.1, r1.2 ++ r2.2)

/-- Recogniser for the highlight action among interpreter emissions. -/
def Emitted.isSetHighlight : Emitted → Bool
  | Emitted.setHighlight _ _ _ _ _ _ _ => true
  | _ => false

/-- The highlight attributes left active by an emission stream: the last
`setHighlight` action in it, if any (later actions supersede earlier ones in the
action sink). -/
def activeHighlight (out : List Emitted) : Option Emitted :=
  (out.filter Emitted.isSetHighlight).getLast?

/- ## Top-level notification handler and session events (`start`, lines 254-356) -/

/-- The mutable flags of the driver relevant to notification handling: the
`_isLeaving` flag (declared and never initialised, hence initially falsy) and the
`_pendingScrollTimeout` debounce slot. -/
structure DriverState where
  isLeaving : Bool
  pendingScroll : Bool

/-- The driver state right after construction. -/
def initialDriverState : DriverState := ⟨false, false⟩

/-- One observable emission of the top-level `notification`/`disconnect`
handlers installed by `start`: a redraw-interpreter emission, the
`RedrawComplete` dispatch, a plugin-router event dispatch, an async invocation it
kicks off, a logged warning for unknown wire content, or a dispatch on the
`_onErrorEvent` feed. -/
inductive TopEmit where
  | ui (e : Emitted)
  | redrawComplete
  | bufferUpdateCall (context startRange endRange : NVal)
  | yank (info : NVal)
  | oniCommand (command : NVal)
  | dirRefreshRequested
  | leave
  | autocommand (eventName eventContext : NVal)
  | genericEvent (eventName eventContext : NVal)
  | incrementalBufferUpdate (context lineNumber lineContents : NVal)
  | warnUnknownPlugin (subMethod : NVal)
  | warnUnknownNotification (method : NVal)
  | errorFeed (msg : String)

/-- The sub-method names the `oni_plugin_notify` router handles. -/
def knownPluginMethods : List String :=
  ["buffer_update", "oni_yank", "oni_command", "event", "incremental_buffer_update"]

/-- The `oni_plugin_notify` branch of the notification handler (lines 273-316).
`pluginArgs` is `args[0]`; its head is shifted off as the sub-method discriminator
and the remainder `rest` is what the handler then indexes. The `event` sub-method
may set the `_isLeaving` flag. Returns the updated state and ordered emissions. -/
def handlePluginNotify (st : DriverState) (args : List NVal) :
    DriverState × List TopEmit :=
  let pluginArgs := args.headD NVal.nil
  let pluginMethod := pluginArgs.idx 0
  let rest := pluginArgs.tailList
  match pluginMethod with
  | NVal.str s =>
    if s = "buffer_update" then
      (st, [TopEmit.bufferUpdateCall (rest.getD 0 NVal.nil) (rest.getD 1 NVal.nil)
              (rest.getD 2 NVal.nil)])
    else if s = "oni_yank" then
      (st, [TopEmit.yank (rest.getD 0 NVal.nil)])
    else if s = "oni_command" then
      (st, [TopEmit.oniCommand (rest.getD 0 NVal.nil)])
    else if s = "event" then
      let eventName := rest.getD 0 NVal.nil
      let eventContext := rest.getD 1 NVal.nil
      let branch : DriverState × List TopEmit :=
        match eventName with
        | NVal.str n =>
          if n = "DirChanged" then (st, [TopEmit.dirRefreshRequested])
          else if n = "VimLeave" then ({ st with isLeaving := true }, [TopEmit.leave])
          else (st, [])
        | _ => (st, [])
      (branch.1, branch.2 ++
        [TopEmit.autocommand eventName eventContext,
         TopEmit.genericEvent eventName eventContext])
    else if s = "incremental_buffer_update" then
      (st, [TopEmit.incrementalBufferUpdate (rest.getD 0 NVal.nil) (rest.getD 2 NVal.nil)
              (rest.getD 1 NVal.nil)])
    else
      (st, [TopEmit.warnUnknownPlugin (NVal.str s)])
  | m => (st, [TopEmit.warnUnknownPlugin m])

/-- The `notification` handler installed by `start` (lines 269-320): `redraw`
payloads go through the redraw interpreter and are followed unconditionally by the
`RedrawComplete` dispatch; `oni_plugin_notify` payloads go through the plugin
router; any other method is logged as an unknown notification. -/
def onNotification (bellUrl : NVal) (st : DriverState) (method : NVal)
    (args : List NVal) : DriverState × List TopEmit :=
  match method with
  | NVal.str s =>
    if s = "redraw" then
      let r := handleNotification bellUrl st.pendingScroll (args.map NVal.toListD)
      ({ st with pendingScroll := r.1 }, r.2.map TopEmit.ui ++ [TopEmit.redrawComplete])
    else if s = "oni_plugin_notify" then
      handlePluginNotify st args
    else
      (st, [TopEmit.warnUnknownNotification (NVal.str s)])
  | m => (st, [TopEmit.warnUnknownNotification m])

/-- The message `_onError` receives on an unexpected disconnect (line 328). -/
def disconnectErrorMessage : String :=
  "Neovim disconnected. This likely means that the Neovim process crashed."

/-- An event delivered by the session transport to the handlers `start`
installs. -/
inductive SessionEvent where
  | notification (method : NVal) (args : List NVal)
  | disconnect
  | sessionError (msg : String)

/-- One step of the driver's event loop: the handler `start` installs for each
transport event class. A `disconnect` while `_isLeaving` is falsy dispatches one
error on the feed; after `VimLeave` it is silent. -/
def step (bellUrl : NVal) (st : DriverState) : SessionEvent → DriverState × List TopEmit
  | SessionEvent.notification method args => onNotification bellUrl st method args
  | SessionEvent.disconnect =>
    if st.isLeaving then (st, []) else (st, [TopEmit.errorFeed disconnectErrorMessage])
  | SessionEvent.sessionError msg => (st, [TopEmit.errorFeed msg])

/-- Running the driver over a serial sequence of transport events, concatenating
the emissions in arrival order. -/
def run (bellUrl : NVal) (st : DriverState) : List SessionEvent → DriverState × List TopEmit
  | [] => (st, [])
  | ev :: rest =>
    let r1 := step bellUrl st ev
    let r2 := run bellUrl r1.1 rest
    (r2.1, r1.2 ++ r2.2)

/-- Recogniser for an Error-feed dispatch among top-level emissions. -/
def TopEmit.isErrorFeed : TopEmit → Bool
  | TopEmit.errorFeed _ => true
  | _ => false

/-- Recogniser for the Leave dispatch. -/
def TopEmit.isLeave : TopEmit → Bool
  | TopEmit.leave => true
  | _ => false

/-- Recogniser for the RedrawComplete dispatch. -/
def TopEmit.isRedrawComplete : TopEmit → Bool
  | TopEmit.redrawComplete => true
  | _ => false

/- ## Resize coordinator (`resize`/`_resizeInternal`/`_getSize`, lines 435-480) -/

/-- `_getSize()`: floor-divide the recorded pixel dimensions by the font metrics
(rows from height, columns from width). Pixel quantities are modelled as exact
rationals and `Math.floor` as the integer floor. -/
def _getSize (s : ResizeState) : Int × Int :=
  (⌊s.lastHeightInPixels / s.fontHeightInPixels⌋,
   ⌊s.lastWidthInPixels / s.fontWidthInPixels⌋)

/-- `_resizeInternal(rows, columns)`, with `fixedSize` the optional
`debug.fixedSize` configuration override: returns the updated state and, when a
resize RPC is issued, the `nvim_ui_try_resize` argument list `[columns, rows]`.
If the (possibly overridden) counts equal the applied `_rows`/`_cols` the call
returns early; otherwise the counts are stored, and the RPC is issued only once
`_initPromise` exists (the session has begun attaching). -/
def _resizeInternal (fixedSize : Option (Int × Int)) (s : ResizeState)
    (rows columns : Int) : ResizeState × Option (Int × Int) :=
  let rc := match fixedSize with
    | some (r, c) => (r, c)
    | none => (rows, columns)
  if rc.1 = s.rows ∧ rc.2 = s.cols then
    (s, none)
  else
    let s' := { s with rows := rc.1, cols := rc.2 }
    if s.attached then (s', some (rc.2, rc.1)) else (s', none)

/-- `resize(widthInPixels, heightInPixels)`: record the pixel dimensions, recompute
the counts via `_getSize`, and delegate to `_resizeInternal`. -/
def resize (fixedSize : Option (Int × Int)) (s : ResizeState)
    (widthInPixels heightInPixels : ℚ) : ResizeState × Option (Int × Int) :=
  let s1 := { s with lastWidthInPixels := widthInPixels,
                     lastHeightInPixels := heightInPixels }
  let size := _getSize s1
  _resizeInternal fixedSize s1 size.1 size.2

/- ## Attach flow inside `start` (lines 338-356 and `_attachUI`, lines 629-636) -/

/-- An RPC `_attachUI` issues. -/
inductive AttachEffect where
  | getApiInfoRpc
  | uiAttachRpc (columns rows : Int) (opts : StartupOptions)

/-- `_attachUI(columns, rows)`: request the API version, compute the startup
options for it, and issue `nvim_ui_attach`; when the version policy throws, the
attach RPC is never issued and the async function's promise rejects with the
thrown error. -/
def _attachUI (version : Int × Int × Int) (columns rows : Int) :
    List AttachEffect × Except String Unit :=
  match _getStartupOptionsForVersion version.1 version.2.1 version.2.2 with
  | Except.ok opts =>
    ([AttachEffect.getApiInfoRpc, AttachEffect.uiAttachRpc columns rows opts], Except.ok ())
  | Except.error e =>
    ([AttachEffect.getApiInfoRpc], Except.error e)

/-- An observable emission of the attach segment of `start`. -/
inductive StartEmit where
  | attachEffect (e : AttachEffect)
  | errorFeed (msg : String)
  | postAttachSetup

/-- How the promise `start` returns settles. -/
inductive StartResult where
  | fulfilled
  | rejectedWith (msg : String)

/-- The attach segment of `start` (line 338): `this._attachUI(...).then(onOk,
onErr)`. On success the post-attach setup (`set title`, `OniConnect`) runs; on
rejection the second `.then` callback `(err) => { this._onError(err) }` runs,
dispatching the error on the `_onErrorEvent` feed and returning `undefined`, so
the resulting promise — and with it the promise `start` returns — fulfills. -/
def startAttachSegment (version : Int × Int × Int) (columns rows : Int) :
    List StartEmit × StartResult :=
  match _attachUI version columns rows with
  | (effects, Except.ok _) =>
    (effects.map StartEmit.attachEffect ++ [StartEmit.postAttachSetup], StartResult.fulfilled)
  | (effects, Except.error e) =>
    (effects.map StartEmit.attachEffect ++ [StartEmit.errorFeed e], StartResult.fulfilled)

/-- Recogniser for the `nvim_ui_attach` RPC among attach-segment emissions. -/
def StartEmit.isUiAttach : StartEmit → Bool
  | StartEmit.attachEffect (AttachEffect.uiAttachRpc _ _ _) => true
  | _ => false

/-- Recogniser for an Error-feed dispatch among attach-segment emissions. -/
def StartEmit.isErrorFeed : StartEmit → Bool
  | StartEmit.errorFeed _ => true
  | _ => false

/-- The `oni_plugin_notify` session event carrying a `VimLeave` lifecycle
event. -/
def vimLeaveNotification (eventContext : NVal) : SessionEvent :=
  SessionEvent.notification (NVal.str "oni_plugin_notify")
    [NVal.list [NVal.str "event", NVal.str "VimLeave", eventContext]]

/- ## Theorems -/

/-- C10: in every driver state, the `cursorPosition` getter returns
row 0, column 0 and `screenToPixels` returns the origin for all arguments —
neither interface member reflects the actual cursor position or geometry. -/
theorem claim_c10_stubbed_interface_members :
    (∀ s : ResizeState, cursorPosition s = ⟨0, 0⟩) ∧
    (∀ (s : ResizeState) (row col : Int), screenToPixels s row col = ⟨0, 0⟩) :=
  ⟨fun _ => rfl, fun _ _ _ => rfl⟩

/-- C2: attach negotiation maps any version with `major ≥ 0`, `minor ≥ 2` and
`patch ≥ 1` to the full capability set `{rgb, popupmenu_external, ext_tabline}`;
otherwise a version with `major = 0` and `minor = 2` gets the set without
`ext_tabline`; every other version fails with the unsupported-version error. In
particular `(0,2,1)` yields all three capabilities, `(0,2,0)` yields two, and
`(0,1,5)` fails. -/
theorem claim_c2_version_negotiation :
    (∀ major minor patch : Int, major ≥ 0 ∧ minor ≥ 2 ∧ patch ≥ 1 →
      _getStartupOptionsForVersion major minor patch = Except.ok ⟨true, true, some true⟩) ∧
    (∀ major minor patch : Int, ¬(major ≥ 0 ∧ minor ≥ 2 ∧ patch ≥ 1) →
      major = 0 ∧ minor = 2 →
      _getStartupOptionsForVersion major minor patch = Except.ok ⟨true, true, none⟩) ∧
    (∀ major minor patch : Int, ¬(major ≥ 0 ∧ minor ≥ 2 ∧ patch ≥ 1) →
      ¬(major = 0 ∧ minor = 2) →
      _getStartupOptionsForVersion major minor patch
        = Except.error "Unsupported version of Neovim.") ∧
    _getStartupOptionsForVersion 0 2 1 = Except.ok ⟨true, true, some true⟩ ∧
    _getStartupOptionsForVersion 0 2 0 = Except.ok ⟨true, true, none⟩ ∧
    _getStartupOptionsForVersion 0 1 5 = Except.error "Unsupported version of Neovim." := by
  refine ⟨?_, ?_, ?_, rfl, rfl, rfl⟩
  · intro major minor patch h
    simp [_getStartupOptionsForVersion, h]
  · intro major minor patch h1 h2
    obtain ⟨hm, hn⟩ := h2
    subst hm; subst hn
    have hp : ¬ patch ≥ 1 := fun hp' => h1 ⟨by omega, by omega, hp'⟩
    simp [_getStartupOptionsForVersion, hp]
  · intro major minor patch h1 h2
    simp [_getStartupOptionsForVersion, h1, h2]

/-- Witness for C2: the three hypotheses of the general conjuncts are
dischargeable, at `(0,2,1)`, `(0,2,0)` and `(0,1,5)` respectively. -/
theorem claim_c2_version_negotiation_witness :
    _getStartupOptionsForVersion 0 2 1 = Except.ok ⟨true, true, some true⟩ ∧
    _getStartupOptionsForVersion 0 2 0 = Except.ok ⟨true, true, none⟩ ∧
    _getStartupOptionsForVersion 0 1 5 = Except.error "Unsupported version of Neovim." :=
  ⟨claim_c2_version_negotiation.1 0 2 1 (by decide),
   claim_c2_version_negotiation.2.1 0 2 0 (by decide) (by decide),
   claim_c2_version_negotiation.2.2.1 0 1 5 (by decide) (by decide)⟩

/-- C3: a full buffer-update trigger whose end line exceeds the 5000-line ceiling
produces no effects at all (no fetch RPC, no event, no error); otherwise exactly
one `nvim_buf_get_lines` fetch is issued, for the half-open zero-based range
`[startRange - 1, endRange)` of the buffer named in the context, with strict
indexing off. In particular end 5000 fetches `[0, 5000)` and end 5001 does
nothing. -/
theorem claim_c3_buffer_update_ceiling :
    (∀ (fetchResult : Except String (List String)) (context : NVal)
        (startRange endRange : Int), endRange > 5000 →
      _onFullBufferUpdate fetchResult context startRange endRange = []) ∧
    (∀ (fetchResult : Except String (List String)) (context : NVal)
        (startRange endRange : Int), endRange ≤ 5000 →
      (_onFullBufferUpdate fetchResult context startRange endRange).filter
          BufferSyncEffect.isFetch
        = [BufferSyncEffect.fetchRpc (context.getField "bufferNumber")
            (startRange - 1) endRange false]) ∧
    (∀ (fetchResult : Except String (List String)) (context : NVal),
      (_onFullBufferUpdate fetchResult context 1 5000).filter BufferSyncEffect.isFetch
        = [BufferSyncEffect.fetchRpc (context.getField "bufferNumber") 0 5000 false]) ∧
    (∀ (fetchResult : Except String (List String)) (context : NVal),
      _onFullBufferUpdate fetchResult context 1 5001 = []) := by
  have hceil : ∀ (fetchResult : Except String (List String)) (context : NVal)
      (startRange endRange : Int), endRange > 5000 →
      _onFullBufferUpdate fetchResult context startRange endRange = [] := by
    intro fetchResult context startRange endRange h
    simp [_onFullBufferUpdate, MAX_LINES_FOR_BUFFER_UPDATE, h]
  have hfetch : ∀ (fetchResult : Except String (List String)) (context : NVal)
      (startRange endRange : Int), endRange ≤ 5000 →
      (_onFullBufferUpdate fetchResult context startRange endRange).filter
          BufferSyncEffect.isFetch
        = [BufferSyncEffect.fetchRpc (context.getField "bufferNumber")
            (startRange - 1) endRange false] := by
    intro fetchResult context startRange endRange h
    have h' : ¬ endRange > MAX_LINES_FOR_BUFFER_UPDATE := by
      simp [MAX_LINES_FOR_BUFFER_UPDATE]; omega
    cases fetchResult <;>
      simp [_onFullBufferUpdate, h', List.filter, BufferSyncEffect.isFetch]
  refine ⟨hceil, hfetch, ?_, ?_⟩
  · intro fetchResult context
    have := hfetch fetchResult context 1 5000 (by omega)
    simpa using this
  · intro fetchResult context
    exact hceil fetchResult context 1 5001 (by omega)

/-- Witness for C3: concrete instances discharging both hypotheses — end 5000 is
within the ceiling and fetches `[0, 5000)`, end 5001 is above it and does
nothing. -/
theorem claim_c3_buffer_update_ceiling_witness :
    (_onFullBufferUpdate (Except.ok ["line"]) (NVal.dict [("bufferNumber", NVal.num 2)])
        1 5000).filter BufferSyncEffect.isFetch
      = [BufferSyncEffect.fetchRpc ((NVal.dict [("bufferNumber", NVal.num 2)]).getField
          "bufferNumber") (1 - 1) 5000 false] ∧
    _onFullBufferUpdate (Except.ok ["line"]) (NVal.dict [("bufferNumber", NVal.num 2)])
        1 5001 = [] :=
  ⟨claim_c3_buffer_update_ceiling.2.1 (Except.ok ["line"])
      (NVal.dict [("bufferNumber", NVal.num 2)]) 1 5000 (by omega),
   claim_c3_buffer_update_ceiling.1 (Except.ok ["line"])
      (NVal.dict [("bufferNumber", NVal.num 2)]) 1 5001 (by omega)⟩

/-- Commands whose handler reads only the first argument tuple (`a[0]`). -/
def firstTupleCommands : List String :=
  ["cursor_goto", "set_scroll_region", "scroll", "resize", "set_title",
   "update_bg", "update_fg", "popupmenu_select", "popupmenu_show", "tabline_update"]

/-- C1: the interpreter consumes the first argument tuple of a command by default
— for every command whose handler reads one tuple, extra tuples after the first
change nothing — except `highlight_set` and `mode_change`, which consume the last
tuple. Consequently two `highlight_set` commands in one batch leave only the last
one's attributes active, and `cursor_goto` with two tuples applies only the first
tuple's position. -/
theorem claim_c1_tuple_consumption :
    (∀ (bellUrl : NVal) (pending : Bool) (t1 t2 : NVal) (rest : List NVal),
      ∀ name ∈ firstTupleCommands,
      handleEntry bellUrl pending (NVal.str name :: t1 :: t2 :: rest)
        = handleEntry bellUrl pending [NVal.str name, t1]) ∧
    (∀ (bellUrl : NVal) (pending : Bool) (ts : List NVal) (t : NVal),
      handleEntry bellUrl pending (NVal.str "highlight_set" :: (ts ++ [t]))
        = (pending, [highlightEmission (t.idx 0)])) ∧
    (∀ (bellUrl : NVal) (pending : Bool) (ts : List NVal) (t : NVal),
      handleEntry bellUrl pending (NVal.str "mode_change" :: (ts ++ [t]))
        = (pending, [Emitted.changeModeAction (t.idx 0),
                     Emitted.modeChangedEvent (t.idx 0)])) ∧
    (∀ (bellUrl : NVal) (pending : Bool) (t1 t2 : NVal) (rest : List NVal),
      handleEntry bellUrl pending (NVal.str "cursor_goto" :: t1 :: t2 :: rest)
        = (pending, [Emitted.cursorGoto (t1.idx 0) (t1.idx 1)])) ∧
    (∀ (bellUrl : NVal) (pending : Bool) (ts1 ts2 : List NVal) (t1 t2 : NVal),
      activeHighlight (handleNotification bellUrl pending
          [NVal.str "highlight_set" :: (ts1 ++ [t1]),
           NVal.str "highlight_set" :: (ts2 ++ [t2])]).2
        = some (highlightEmission (t2.idx 0))) := by
  have hhl : ∀ (bellUrl : NVal) (pending : Bool) (ts : List NVal) (t : NVal),
      handleEntry bellUrl pending (NVal.str "highlight_set" :: (ts ++ [t]))
        = (pending, [highlightEmission (t.idx 0)]) := by
    intro bellUrl pending ts t
    simp [handleEntry, List.getLastD_concat]
  refine ⟨?_, hhl, ?_, ?_, ?_⟩
  · intro bellUrl pending t1 t2 rest name hname
    fin_cases hname <;> rfl
  · intro bellUrl pending ts t
    simp [handleEntry, List.getLastD_concat]
  · intro bellUrl pending t1 t2 rest
    rfl
  · intro bellUrl pending ts1 ts2 t1 t2
    simp [handleNotification, hhl, activeHighlight, List.filter,
      highlightEmission, Emitted.isSetHighlight]

/-- Witness for C1: the first-tuple rule applied at the concrete command
`cursor_goto` with two concrete tuples. -/
theorem claim_c1_tuple_consumption_witness :
    handleEntry NVal.nil false
        [NVal.str "cursor_goto", NVal.list [NVal.num 1, NVal.num 2],
         NVal.list [NVal.num 3, NVal.num 4]]
      = handleEntry NVal.nil false
          [NVal.str "cursor_goto", NVal.list [NVal.num 1, NVal.num 2]] :=
  claim_c1_tuple_consumption.1 NVal.nil false
    (NVal.list [NVal.num 1, NVal.num 2]) (NVal.list [NVal.num 3, NVal.num 4]) []
    "cursor_goto" (by simp [firstTupleCommands])

/-- C4: unknown wire content is logged and skipped, never fatal: an unknown redraw
command contributes only its warning while the remaining commands are still
processed; an unknown plugin sub-method produces only a warning and leaves the
driver state unchanged; an unknown top-level notification method likewise
produces only a warning, and in particular nothing on the Error feed. -/
theorem claim_c4_unknown_skipped :
    (∀ (bellUrl : NVal) (pending : Bool) (name : String) (ts : List NVal)
        (rest : List (List NVal)), name ∉ knownRedrawCommands →
      handleNotification bellUrl pending ((NVal.str name :: ts) :: rest)
        = ((handleNotification bellUrl pending rest).1,
           Emitted.warnUnhandled (NVal.str name)
             :: (handleNotification bellUrl pending rest).2)) ∧
    (∀ (st : DriverState) (sub : String) (subArgs : List NVal),
        sub ∉ knownPluginMethods →
      handlePluginNotify st [NVal.list (NVal.str sub :: subArgs)]
        = (st, [TopEmit.warnUnknownPlugin (NVal.str sub)])) ∧
    (∀ (bellUrl : NVal) (st : DriverState) (method : String) (args : List NVal),
        method ∉ ["redraw", "oni_plugin_notify"] →
      onNotification bellUrl st (NVal.str method) args
        = (st, [TopEmit.warnUnknownNotification (NVal.str method)]) ∧
      ((onNotification bellUrl st (NVal.str method) args).2.filter TopEmit.isErrorFeed
        = [])) := by
  refine ⟨?_, ?_, ?_⟩
  · intro bellUrl pending name ts rest h
    simp only [knownRedrawCommands, List.mem_cons, List.not_mem_nil, or_false,
      not_or] at h
    obtain ⟨h1, h2, h3, h4, h5, h6, h7, h8, h9, h10, h11, h12, h13, h14, h15,
      h16, h17, h18, h19⟩ := h
    simp [handleNotification, handleEntry, h1, h2, h3, h4, h5, h6, h7, h8, h9,
      h10, h11, h12, h13, h14, h15, h16, h17, h18, h19]
  · intro st sub subArgs h
    simp only [knownPluginMethods, List.mem_cons, List.not_mem_nil, or_false,
      not_or] at h
    obtain ⟨h1, h2, h3, h4, h5⟩ := h
    simp [handlePluginNotify, NVal.idx, NVal.tailList, NVal.toListD,
      h1, h2, h3, h4, h5]
  · intro bellUrl st method args h
    simp only [List.mem_cons, List.not_mem_nil, or_false, not_or] at h
    obtain ⟨h1, h2⟩ := h
    constructor
    · simp [onNotification, h1, h2]
    · simp [onNotification, h1, h2, List.filter, TopEmit.isErrorFeed]

/-- Witness for C4: the three non-membership hypotheses discharged at the
concrete unknown names `"wildmenu_show"`, `"telemetry"` and `"nvim_custom"`. -/
theorem claim_c4_unknown_skipped_witness :
    (handleNotification NVal.nil false [[NVal.str "wildmenu_show"]]
      = ((handleNotification NVal.nil false []).1,
         Emitted.warnUnhandled (NVal.str "wildmenu_show")
           :: (handleNotification NVal.nil false []).2)) ∧
    (handlePluginNotify initialDriverState [NVal.list [NVal.str "telemetry"]]
      = (initialDriverState, [TopEmit.warnUnknownPlugin (NVal.str "telemetry")])) ∧
    (onNotification NVal.nil initialDriverState (NVal.str "nvim_custom") []
      = (initialDriverState,
         [TopEmit.warnUnknownNotification (NVal.str "nvim_custom")])) :=
  ⟨claim_c4_unknown_skipped.1 NVal.nil false "wildmenu_show" [] []
      (by simp [knownRedrawCommands]),
   claim_c4_unknown_skipped.2.1 initialDriverState "telemetry" []
      (by simp [knownPluginMethods]),
   (claim_c4_unknown_skipped.2.2 NVal.nil initialDriverState "nvim_custom" []
      (by simp)).1⟩

/-- UI-action emissions are never the RedrawComplete dispatch. -/
theorem filter_isRedrawComplete_map_ui (xs : List Emitted) :
    (xs.map TopEmit.ui).filter TopEmit.isRedrawComplete = [] := by
  induction xs with
  | nil => rfl
  | cons x xs ih => simp [TopEmit.isRedrawComplete, ih]

/-- C5: every `redraw` notification, whatever its payload and whatever state the
driver is in, dispatches exactly one RedrawComplete signal, and it comes after
every other emission derived from that notification (it is the last one). -/
theorem claim_c5_redraw_complete (bellUrl : NVal) (st : DriverState)
    (args : List NVal) :
    (onNotification bellUrl st (NVal.str "redraw") args).2.filter
        TopEmit.isRedrawComplete
      = [TopEmit.redrawComplete] ∧
    (onNotification bellUrl st (NVal.str "redraw") args).2.getLast?
      = some TopEmit.redrawComplete := by
  constructor
  · simp [onNotification, List.filter_append, filter_isRedrawComplete_map_ui,
      TopEmit.isRedrawComplete]
  · simp [onNotification]

/-- The plugin router can only leave the `_isLeaving` flag alone or set it. -/
theorem handlePluginNotify_isLeaving_mono (st : DriverState) (args : List NVal)
    (h : st.isLeaving = true) : (handlePluginNotify st args).1.isLeaving = true := by
  unfold handlePluginNotify
  dsimp only
  split
  · split_ifs
    all_goals try exact h
    split
    · split_ifs <;> first | exact h | rfl
    · exact h
  · exact h

/-- The notification handler can only leave the `_isLeaving` flag alone or set
it. -/
theorem onNotification_isLeaving_mono (bellUrl : NVal) (st : DriverState)
    (method : NVal) (args : List NVal) (h : st.isLeaving = true) :
    (onNotification bellUrl st method args).1.isLeaving = true := by
  unfold onNotification
  split
  · split_ifs
    · exact h
    · exact handlePluginNotify_isLeaving_mono st args h
    · exact h
  · exact h

/-- C6: a disconnect preceded by a `VimLeave` lifecycle notification yields a
Leave dispatch and nothing on the Error feed, while a disconnect with no prior
`VimLeave` yields exactly one Error and no Leave; the `_isLeaving` flag, once
true, is never cleared by any later session event, and a `VimLeave` notification
always sets it. -/
theorem claim_c6_disconnect_vs_vimleave :
    (∀ bellUrl ctx : NVal,
      run bellUrl initialDriverState [vimLeaveNotification ctx, SessionEvent.disconnect]
        = (⟨true, false⟩,
           [TopEmit.leave, TopEmit.autocommand (NVal.str "VimLeave") ctx,
            TopEmit.genericEvent (NVal.str "VimLeave") ctx])) ∧
    (∀ bellUrl : NVal,
      run bellUrl initialDriverState [SessionEvent.disconnect]
        = (initialDriverState, [TopEmit.errorFeed disconnectErrorMessage])) ∧
    (∀ (bellUrl : NVal) (st : DriverState) (ev : SessionEvent),
      st.isLeaving = true → (step bellUrl st ev).1.isLeaving = true) ∧
    (∀ (bellUrl ctx : NVal) (st : DriverState),
      (step bellUrl st (vimLeaveNotification ctx)).1.isLeaving = true) := by
  refine ⟨fun bellUrl ctx => rfl, fun bellUrl => rfl, ?_, fun bellUrl ctx st => rfl⟩
  intro bellUrl st ev h
  cases ev with
  | notification method args => exact onNotification_isLeaving_mono bellUrl st method args h
  | disconnect => simp [step, h]
  | sessionError msg => simpa [step] using h

/-- Witness for C6: the flag-monotonicity conjunct applied at a concrete leaving
state and a concrete disconnect event. -/
theorem claim_c6_disconnect_vs_vimleave_witness :
    (step NVal.nil ⟨true, false⟩ SessionEvent.disconnect).1.isLeaving = true :=
  claim_c6_disconnect_vs_vimleave.2.2.1 NVal.nil ⟨true, false⟩
    SessionEvent.disconnect rfl

/-- C7: a resize to pixel dimensions whose floor-division by the font metrics
equals the applied `(rows, cols)` issues no RPC (with no `debug.fixedSize`
override configured); when the counts differ and the session has begun attaching,
exactly one `nvim_ui_try_resize` RPC is issued with arguments in `(cols, rows)`
order; when the counts differ but the session is not yet attaching, the new
geometry is recorded and no RPC is issued. -/
theorem claim_c7_resize_rpc (s : ResizeState) (w h : ℚ) :
    (⌊h / s.fontHeightInPixels⌋ = s.rows ∧ ⌊w / s.fontWidthInPixels⌋ = s.cols →
      resize none s w h
        = ({ s with lastWidthInPixels := w, lastHeightInPixels := h }, none)) ∧
    (¬(⌊h / s.fontHeightInPixels⌋ = s.rows ∧ ⌊w / s.fontWidthInPixels⌋ = s.cols) →
      s.attached = true →
      resize none s w h
        = ({ s with lastWidthInPixels := w, lastHeightInPixels := h,
                    rows := ⌊h / s.fontHeightInPixels⌋,
                    cols := ⌊w / s.fontWidthInPixels⌋ },
           some (⌊w / s.fontWidthInPixels⌋, ⌊h / s.fontHeightInPixels⌋))) ∧
    (¬(⌊h / s.fontHeightInPixels⌋ = s.rows ∧ ⌊w / s.fontWidthInPixels⌋ = s.cols) →
      s.attached = false →
      resize none s w h
        = ({ s with lastWidthInPixels := w, lastHeightInPixels := h,
                    rows := ⌊h / s.fontHeightInPixels⌋,
                    cols := ⌊w / s.fontWidthInPixels⌋ },
           none)) := by
  refine ⟨?_, ?_, ?_⟩
  · intro heq
    simp [resize, _getSize, _resizeInternal, heq]
  · intro hne hatt
    simp [resize, _getSize, _resizeInternal, hne, hatt]
  · intro hne hatt
    simp [resize, _getSize, _resizeInternal, hne, hatt]

/-- Witness for C7: with font metrics 10×20, applied geometry 25×80 and the
session attaching, resizing to 800×500 pixels floors to the same counts and
issues no RPC, while resizing to 800×600 pixels floors to 30 rows and issues one
RPC with arguments `(80, 30)` — columns first. -/
theorem claim_c7_resize_rpc_witness :
    resize none ⟨0, 0, 10, 20, 25, 80, true⟩ 800 500
      = (⟨800, 500, 10, 20, 25, 80, true⟩, none) ∧
    resize none ⟨0, 0, 10, 20, 25, 80, true⟩ 800 600
      = (⟨800, 600, 10, 20, 30, 80, true⟩, some (80, 30)) ∧
    resize none ⟨0, 0, 10, 20, 25, 80, false⟩ 800 600
      = (⟨800, 600, 10, 20, 30, 80, false⟩, none) := by
  refine ⟨?_, ?_, ?_⟩
  · have := (claim_c7_resize_rpc ⟨0, 0, 10, 20, 25, 80, true⟩ 800 500).1
      (by constructor <;> norm_num)
    simpa using this
  · have := (claim_c7_resize_rpc ⟨0, 0, 10, 20, 25, 80, true⟩ 800 600).2.1
      (by intro hc; have := hc.1; norm_num at this) rfl
    simpa [show ⌊(600:ℚ)/20⌋ = 30 by norm_num, show ⌊(800:ℚ)/10⌋ = 80 by norm_num]
      using this
  · have := (claim_c7_resize_rpc ⟨0, 0, 10, 20, 25, 80, false⟩ 800 600).2.2
      (by intro hc; have := hc.1; norm_num at this) rfl
    simpa [show ⌊(600:ℚ)/20⌋ = 30 by norm_num, show ⌊(800:ℚ)/10⌋ = 80 by norm_num]
      using this

/-- C8 counterexample: with a failing line-range fetch for a trigger within the
ceiling, nothing is dispatched on the Error event feed — the rejection of the
un-awaited async `_onFullBufferUpdate` call escapes unhandled instead (the
notification handler invokes it without `await` or `.catch`, and `_onError` is
never called on this path). -/
theorem claim_c8_error_feed_counterexample :
    _onFullBufferUpdate (Except.error "transport failure")
        (NVal.dict [("bufferNumber", NVal.num 3)]) 1 10
      = [BufferSyncEffect.fetchRpc (NVal.num 3) 0 10 false,
         BufferSyncEffect.rejectedUnhandled "transport failure"] ∧
    (_onFullBufferUpdate (Except.error "transport failure")
        (NVal.dict [("bufferNumber", NVal.num 3)]) 1 10).filter
        BufferSyncEffect.isErrorFeed
      = [] := by
  exact ⟨rfl, rfl⟩

/-- C8 (amended): when a full buffer-update fetch is issued (end line within the
ceiling), a successful fetch dispatches a full BufferUpdate event with the
returned lines, while a failing fetch produces an unhandled rejection and
dispatches neither a BufferUpdate event nor anything on the Error event feed —
the failure is not surfaced as a session error. -/
theorem claim_c8_fetch_outcomes :
    (∀ (context : NVal) (startRange endRange : Int) (bufferLines : List String),
      endRange ≤ 5000 →
      _onFullBufferUpdate (Except.ok bufferLines) context startRange endRange
        = [BufferSyncEffect.fetchRpc (context.getField "bufferNumber")
             (startRange - 1) endRange false,
           BufferSyncEffect.fullUpdateDispatched context bufferLines]) ∧
    (∀ (context : NVal) (startRange endRange : Int) (msg : String),
      endRange ≤ 5000 →
      _onFullBufferUpdate (Except.error msg) context startRange endRange
        = [BufferSyncEffect.fetchRpc (context.getField "bufferNumber")
             (startRange - 1) endRange false,
           BufferSyncEffect.rejectedUnhandled msg]) ∧
    (∀ (fetchResult : Except String (List String)) (context : NVal)
        (startRange endRange : Int),
      (_onFullBufferUpdate fetchResult context startRange endRange).filter
          BufferSyncEffect.isErrorFeed = []) := by
  have hle : ∀ endRange : Int, endRange ≤ 5000 →
      ¬ endRange > MAX_LINES_FOR_BUFFER_UPDATE := by
    intro endRange h
    simp [MAX_LINES_FOR_BUFFER_UPDATE]; omega
  refine ⟨?_, ?_, ?_⟩
  · intro context startRange endRange bufferLines h
    simp [_onFullBufferUpdate, hle endRange h]
  · intro context startRange endRange msg h
    simp [_onFullBufferUpdate, hle endRange h]
  · intro fetchResult context startRange endRange
    unfold _onFullBufferUpdate
    split
    · rfl
    · cases fetchResult <;>
        simp [BufferSyncEffect.isErrorFeed]

/-- Witness for C8: both hypothesis-bearing conjuncts applied at a concrete
trigger within the ceiling, for a succeeding and a failing fetch. -/
theorem claim_c8_fetch_outcomes_witness :
    _onFullBufferUpdate (Except.ok ["alpha", "beta"])
        (NVal.dict [("bufferNumber", NVal.num 7)]) 1 2
      = [BufferSyncEffect.fetchRpc
           ((NVal.dict [("bufferNumber", NVal.num 7)]).getField "bufferNumber")
           (1 - 1) 2 false,
         BufferSyncEffect.fullUpdateDispatched
           (NVal.dict [("bufferNumber", NVal.num 7)]) ["alpha", "beta"]] ∧
    _onFullBufferUpdate (Except.error "boom")
        (NVal.dict [("bufferNumber", NVal.num 7)]) 1 2
      = [BufferSyncEffect.fetchRpc
           ((NVal.dict [("bufferNumber", NVal.num 7)]).getField "bufferNumber")
           (1 - 1) 2 false,
         BufferSyncEffect.rejectedUnhandled "boom"] :=
  ⟨claim_c8_fetch_outcomes.1 (NVal.dict [("bufferNumber", NVal.num 7)]) 1 2
      ["alpha", "beta"] (by omega),
   claim_c8_fetch_outcomes.2.1 (NVal.dict [("bufferNumber", NVal.num 7)]) 1 2
      "boom" (by omega)⟩

/-- C9 counterexample: for the unsupported version `(0,1,5)` the attach segment
of `start` dispatches the thrown error on the Error event feed and the promise
`start` returns fulfills — it does not reject (the rejection handler
`(err) => { this._onError(err) }` passed as the second `.then` argument absorbs
the rejection and returns `undefined`). -/
theorem claim_c9_start_rejects_counterexample :
    startAttachSegment (0, 1, 5) 80 25
      = ([StartEmit.attachEffect AttachEffect.getApiInfoRpc,
          StartEmit.errorFeed "Unsupported version of Neovim."],
         StartResult.fulfilled) := by
  rfl

/-- C9 (amended): when attach negotiation cannot classify the reported version,
the attach is abandoned — no `nvim_ui_attach` RPC is issued — and the failure is
surfaced through the Error event feed, after which the promise returned by
`start` fulfills rather than rejecting. -/
theorem claim_c9_unsupported_version_flow :
    ∀ (version : Int × Int × Int) (columns rows : Int) (e : String),
      _getStartupOptionsForVersion version.1 version.2.1 version.2.2
        = Except.error e →
      (startAttachSegment version columns rows).1.filter StartEmit.isUiAttach = [] ∧
      (startAttachSegment version columns rows).1.filter StartEmit.isErrorFeed
        = [StartEmit.errorFeed e] ∧
      (startAttachSegment version columns rows).2 = StartResult.fulfilled := by
  intro version columns rows e h
  simp [startAttachSegment, _attachUI, h, StartEmit.isUiAttach, StartEmit.isErrorFeed]

/-- Witness for C9: the amended flow applied at the concrete unsupported version
`(0,1,5)`. -/
theorem claim_c9_unsupported_version_flow_witness :
    (startAttachSegment (0, 1, 5) 80 25).1.filter StartEmit.isUiAttach = [] ∧
    (startAttachSegment (0, 1, 5) 80 25).1.filter StartEmit.isErrorFeed
      = [StartEmit.errorFeed "Unsupported version of Neovim."] ∧
    (startAttachSegment (0, 1, 5) 80 25).2 = StartResult.fulfilled :=
  claim_c9_unsupported_version_flow (0, 1, 5) 80 25
    "Unsupported version of Neovim." rfl

end Oni
